import Mathlib

/-!
Embedding of the conversational orchestration state machine of the
rag_medical_chatbot repository (src/rag/graph_nodes.py and src/rag/graph.py).

Messages and documents are modelled as plain records; the Language Model
Port, Retriever Port and the RAG chain are opaque capability functions
bundled in a `Ports` record.  Each graph node of graph_nodes.py becomes a
pure function from `AgentState` to `AgentState`; the LangGraph wiring of
graph.py becomes a `Node` type, the two routers, a `nextNode` edge map and
a deterministic `step` function on `Node × AgentState` configurations.
-/

namespace RagMedicalChatbot

/-- Role tag of a chat message (HumanMessage / AIMessage / SystemMessage). -/
inductive Role where
  | human
  | ai
  | system
deriving DecidableEq, Repr

/-- A chat message: a role together with its text content.  Python equality
on langchain messages is field-wise, which this value equality models. -/
structure Msg where
  role : Role
  content : String
deriving DecidableEq, Repr

/-- A retrieved passage (langchain Document); only page_content is used by
the orchestration layer. -/
structure Document where
  page_content : String
deriving DecidableEq, Repr

/-- The AgentState dict of graph_nodes.py as a typed record. -/
structure AgentState where
  messages : List Msg
  short_term : List Msg
  long_term : List Msg
  documents : List Document
  on_topic : String
  rephrased_question : String
  proceed_to_generate : Bool
  rephrase_count : Nat
  question : Msg
  feedback : String
deriving DecidableEq, Repr

/-- The external capabilities wired into graph_nodes by build_graph:
the language model (llm.invoke over a formatted prompt), the vectorstore
retriever, and the generation rag_chain. -/
structure Ports where
  llm : List Msg → String
  retriever : String → List Document
  rag_chain : List Msg → List Document → String → String

/-- Python list slice l[-n:]: the last n elements (all of l when shorter). -/
def lastN (l : List Msg) (n : Nat) : List Msg :=
  l.drop (l.length - n)

/-- Python str.strip on a character list: whitespace removed from both
ends. -/
def stripChars (l : List Char) : List Char :=
  ((l.dropWhile Char.isWhitespace).reverse.dropWhile Char.isWhitespace).reverse

/-- Python str.strip. -/
def pyStrip (s : String) : String :=
  String.mk (stripChars s.data)

/-- Python str.lower (ASCII letters, as exercised by the code). -/
def pyLower (s : String) : String :=
  String.mk (s.data.map Char.toLower)

/-- Whether the pattern is a leading segment of the text (character lists). -/
def leadMatch : List Char → List Char → Bool
  | [], _ => true
  | _ :: _, [] => false
  | p :: ps, c :: cs => p == c && leadMatch ps cs

/-- Python substring containment pat in s, on character lists. -/
def hasSub : List Char → List Char → Bool
  | [], pat => pat.isEmpty
  | c :: rest, pat => leadMatch pat (c :: rest) || hasSub rest pat

/-- Python str.startswith. -/
def pyStartsWith (s pat : String) : Bool :=
  leadMatch pat.data s.data

/-- Python substring containment pat in s for strings. -/
def strContains (s pat : String) : Bool :=
  hasSub s.data pat.data

/-- The fixed importance keyword list of is_important in graph_nodes.py. -/
def importance_keywords : List String :=
  ["dosage", "side effect", "administration", "clinical", "aimovig", "repatha"]

/-- is_important of graph_nodes.py: any keyword occurs in the lower-cased
message. -/
def is_important (message : String) : Bool :=
  importance_keywords.any (fun k => strContains (pyLower message) k)

/-- System instruction of the rephrase prompt in question_rewriter. -/
def rephraseSystemMsg : String :=
  "You are a helpful assistant that rephrases the user\x27s question to be a standalone question optimized for retrieval."

/-- The rephrase prompt of question_rewriter: system instruction, the last
two short_term messages, then the raw question text. -/
def rephrasePrompt (short_term : List Msg) (q : Msg) : List Msg :=
  [⟨Role.system, rephraseSystemMsg⟩] ++ lastN short_term 2 ++ [⟨Role.human, q.content⟩]

/-- The messages list produced by question_rewriter: the question is
appended unless already present (Python membership test, value equality). -/
def rewriterMessages (s : AgentState) : List Msg :=
  if s.question ∈ s.messages then s.messages else s.messages ++ [s.question]

/-- question_rewriter of graph_nodes.py: resets the per-turn fields,
conditionally appends the question to messages, and sets
rephrased_question either from the model (when more than one message is
present after the append) or verbatim from the question text. -/
def question_rewriter (P : Ports) (s : AgentState) : AgentState :=
  if (rewriterMessages s).length > 1 then
    { s with
      documents := []
      on_topic := ""
      proceed_to_generate := false
      rephrase_count := 0
      messages := rewriterMessages s
      rephrased_question := pyStrip (P.llm (rephrasePrompt s.short_term s.question)) }
  else
    { s with
      documents := []
      on_topic := ""
      proceed_to_generate := false
      rephrase_count := 0
      messages := rewriterMessages s
      rephrased_question := s.question.content }

/-- The neutral_sections list of question_classifier. -/
def neutral_sections : List String :=
  ["Overview of the medical document",
   "Indications and clinical use of biologic treatments",
   "Dosage and administration details of biologics",
   "Comparative analysis between biologic therapies",
   "Scientific references and clinical study sources"]

/-- System instruction of the classifier prompt in question_classifier. -/
def classifierSystemMsg : String :=
  "You are a strict Yes/No classifier.\n"
    ++ "Determine if the user\x27s question relates to **any** of the following topics based on a medical summary document:\n\n"
    ++ String.intercalate "\n"
        ((neutral_sections.enum).map (fun p => toString (p.1 + 1) ++ ". " ++ p.2))
    ++ "\n\nOnly respond with \x27Yes\x27 or \x27No\x27. Do not explain or elaborate."

/-- The classifier prompt: the system instruction plus the rephrased
question as the human message. -/
def classifierPrompt (s : AgentState) : List Msg :=
  [⟨Role.system, classifierSystemMsg⟩, ⟨Role.human, s.rephrased_question⟩]

/-- question_classifier of graph_nodes.py: the response is stripped and
lower-cased; on_topic is Yes exactly when it starts with y. -/
def question_classifier (P : Ports) (s : AgentState) : AgentState :=
  { s with
    on_topic :=
      if pyStartsWith (pyLower (pyStrip (P.llm (classifierPrompt s)))) "y" then "Yes" else "No" }

/-- retrieve of graph_nodes.py: full replacement of documents by the
retriever output for the rephrased question. -/
def retrieve (P : Ports) (s : AgentState) : AgentState :=
  { s with documents := P.retriever s.rephrased_question }

/-- The per-document grading prompt of retrieval_grader. -/
def gradePrompt (q : String) (d : Document) : List Msg :=
  [⟨Role.system, "Grade if the document is relevant to the user question. Answer Yes or No."⟩,
   ⟨Role.human, "Q: " ++ q ++ "\nDoc: " ++ d.page_content⟩]

/-- The per-document relevance verdict of retrieval_grader: the model
response, stripped and lower-cased, starts with y. -/
def docRelevant (P : Ports) (q : String) (d : Document) : Bool :=
  pyStartsWith (pyLower (pyStrip (P.llm (gradePrompt q d)))) "y"

/-- retrieval_grader of graph_nodes.py: keeps exactly the documents judged
relevant, in order, and proceeds iff at least one was kept. -/
def retrieval_grader (P : Ports) (s : AgentState) : AgentState :=
  { s with
    documents := s.documents.filter (docRelevant P s.rephrased_question)
    proceed_to_generate :=
      decide (0 < (s.documents.filter (docRelevant P s.rephrased_question)).length) }

/-- The refinement prompt of refine_question. -/
def refinePrompt (q : String) : List Msg :=
  [⟨Role.system, "You are a helpful assistant that slightly refines the user\x27s question to improve retrieval results."⟩,
   ⟨Role.human, "Original question: " ++ q ++ "\n\nRefine it:"⟩]

/-- refine_question of graph_nodes.py: pass-through when rephrase_count is
already at least 2, otherwise replaces rephrased_question with the trimmed
model output and increments rephrase_count. -/
def refine_question (P : Ports) (s : AgentState) : AgentState :=
  if 2 ≤ s.rephrase_count then s
  else
    { s with
      rephrased_question := pyStrip (P.llm (refinePrompt s.rephrased_question))
      rephrase_count := s.rephrase_count + 1 }

/-- Python slice short_term[-5:] guarded by len(short_term) >= 2, as in
generate_answer. -/
def shortContext (s : AgentState) : List Msg :=
  if 2 ≤ s.short_term.length then lastN s.short_term 5 else s.short_term

/-- The assistant message produced by generate_answer: the rag_chain output
on (history, context, question), stripped, wrapped as an AI message. -/
def genMessage (P : Ports) (s : AgentState) : Msg :=
  ⟨Role.ai, pyStrip (P.rag_chain (shortContext s) s.documents s.rephrased_question)⟩

/-- generate_answer of graph_nodes.py: appends the answer to messages,
appends the question/answer pair to short_term, and also to long_term when
the original question is important. -/
def generate_answer (P : Ports) (s : AgentState) : AgentState :=
  { s with
    messages := s.messages ++ [genMessage P s]
    short_term := s.short_term ++ [s.question, genMessage P s]
    long_term :=
      if is_important s.question.content then s.long_term ++ [s.question, genMessage P s]
      else s.long_term }

/-- The fixed fallback message of cannot_answer. -/
def cannotAnswerMsg : Msg :=
  ⟨Role.ai, "Sorry, I couldn\x27t find an answer."⟩

/-- cannot_answer of graph_nodes.py: appends the fixed fallback message. -/
def cannot_answer (s : AgentState) : AgentState :=
  { s with messages := s.messages ++ [cannotAnswerMsg] }

/-- The fixed off-topic message of off_topic_response. -/
def offTopicMsg : Msg :=
  ⟨Role.ai, "That question is off-topic for this case study."⟩

/-- off_topic_response of graph_nodes.py: appends the fixed off-topic
message. -/
def off_topic_response (s : AgentState) : AgentState :=
  { s with messages := s.messages ++ [offTopicMsg] }

/-- The named steps of the LangGraph graph of graph.py, plus the END
terminal. -/
inductive Node where
  | question_rewriter
  | question_classifier
  | retrieve
  | retrieval_grader
  | refine_question
  | generate_answer
  | cannot_answer
  | off_topic_response
  | terminal
deriving DecidableEq, Repr

/-- on_topic_router of graph.py. -/
def on_topic_router (s : AgentState) : String :=
  if s.on_topic = "Yes" then "retrieve" else "off_topic_response"

/-- proceed_router of graph.py. -/
def proceed_router (s : AgentState) : String :=
  if s.proceed_to_generate then "generate_answer"
  else if s.rephrase_count < 2 then "refine_question"
  else "cannot_answer"

/-- The body run at each node (identity at the terminal). -/
def runNode (P : Ports) : Node → AgentState → AgentState
  | Node.question_rewriter, s => question_rewriter P s
  | Node.question_classifier, s => question_classifier P s
  | Node.retrieve, s => retrieve P s
  | Node.retrieval_grader, s => retrieval_grader P s
  | Node.refine_question, s => refine_question P s
  | Node.generate_answer, s => generate_answer P s
  | Node.cannot_answer, s => cannot_answer s
  | Node.off_topic_response, s => off_topic_response s
  | Node.terminal, s => s

/-- The edge map of build_graph: fixed edges plus the two conditional-edge
dictionaries, evaluated on the state produced by the node just run. -/
def nextNode : Node → AgentState → Node
  | Node.question_rewriter, _ => Node.question_classifier
  | Node.question_classifier, s =>
      if on_topic_router s = "retrieve" then Node.retrieve else Node.off_topic_response
  | Node.retrieve, _ => Node.retrieval_grader
  | Node.retrieval_grader, s =>
      if proceed_router s = "generate_answer" then Node.generate_answer
      else if proceed_router s = "refine_question" then Node.refine_question
      else Node.cannot_answer
  | Node.refine_question, _ => Node.retrieve
  | Node.generate_answer, _ => Node.terminal
  | Node.cannot_answer, _ => Node.terminal
  | Node.off_topic_response, _ => Node.terminal
  | Node.terminal, _ => Node.terminal

/-- One graph transition: run the current node, then follow its edge. -/
def step (P : Ports) (c : Node × AgentState) : Node × AgentState :=
  (nextNode c.1 (runNode P c.1 c.2), runNode P c.1 c.2)

/-- k graph transitions from a configuration. -/
def stepN (P : Ports) : Nat → Node × AgentState → Node × AgentState
  | 0, c => c
  | k + 1, c => stepN P k (step P c)

/-- The list of the first k nodes visited starting from a configuration. -/
def traceNodes (P : Ports) : Nat → Node × AgentState → List Node
  | 0, _ => []
  | k + 1, c => c.1 :: traceNodes P k (step P c)

/-- Lists made of question/answer pairs: empty, or a human message then an
AI message then such a list. -/
inductive PairList : List Msg → Prop where
  | nil : PairList []
  | cons (q a : Msg) (l : List Msg) :
      q.role = Role.human → a.role = Role.ai → PairList l → PairList (q :: a :: l)

/-- Number of occurrences of a node in a node list. -/
def countNode (t : Node) : List Node → Nat
  | [] => 0
  | n :: l => (if n = t then 1 else 0) + countNode t l

/-- Ports whose model always answers Yes and whose retriever returns one
passage. -/
def portsYes : Ports :=
  { llm := fun _ => "Yes"
    retriever := fun _ => [⟨"doc one"⟩]
    rag_chain := fun _ _ _ => "answer" }

/-- Ports whose model always answers No and whose retriever returns
nothing. -/
def portsNo : Ports :=
  { llm := fun _ => "No"
    retriever := fun _ => []
    rag_chain := fun _ _ _ => "answer" }

/-- A fresh session state for a first turn. -/
def baseState : AgentState :=
  { messages := []
    short_term := []
    long_term := []
    documents := []
    on_topic := ""
    rephrased_question := ""
    proceed_to_generate := false
    rephrase_count := 0
    question := ⟨Role.human, "What is the dosage?"⟩
    feedback := "" }

/-- A state about to be graded with one candidate document. -/
def gradeState : AgentState :=
  { baseState with documents := [⟨"doc one"⟩], rephrased_question := "What is the dosage?" }

/-- A state whose refinement budget is exhausted. -/
def exhaustedState : AgentState :=
  { baseState with rephrase_count := 2 }

/-- A state about to be graded after the refinement budget ran out. -/
def exhaustedGradeState : AgentState :=
  { gradeState with rephrase_count := 2 }

/-- A fresh session state whose question matches no importance keyword. -/
def plainState : AgentState :=
  { baseState with question := ⟨Role.human, "Hello there"⟩ }

/-- A session whose history already holds a message equal to the incoming
question, though not as the most recently appended entry. -/
def replayState : AgentState :=
  { messages := [⟨Role.human, "hi"⟩, ⟨Role.ai, "hello"⟩]
    short_term := []
    long_term := []
    documents := []
    on_topic := ""
    rephrased_question := ""
    proceed_to_generate := false
    rephrase_count := 0
    question := ⟨Role.human, "hi"⟩
    feedback := "" }

/-! Field lemmas for the node bodies. -/

lemma qr_documents (P : Ports) (s : AgentState) : (question_rewriter P s).documents = [] := by
  unfold question_rewriter; split <;> rfl

lemma qr_on_topic (P : Ports) (s : AgentState) : (question_rewriter P s).on_topic = "" := by
  unfold question_rewriter; split <;> rfl

lemma qr_proceed (P : Ports) (s : AgentState) :
    (question_rewriter P s).proceed_to_generate = false := by
  unfold question_rewriter; split <;> rfl

lemma qr_count (P : Ports) (s : AgentState) : (question_rewriter P s).rephrase_count = 0 := by
  unfold question_rewriter; split <;> rfl

lemma qr_question (P : Ports) (s : AgentState) : (question_rewriter P s).question = s.question := by
  unfold question_rewriter; split <;> rfl

lemma qr_short (P : Ports) (s : AgentState) :
    (question_rewriter P s).short_term = s.short_term := by
  unfold question_rewriter; split <;> rfl

lemma qr_long (P : Ports) (s : AgentState) : (question_rewriter P s).long_term = s.long_term := by
  unfold question_rewriter; split <;> rfl

lemma qr_messages (P : Ports) (s : AgentState) :
    (question_rewriter P s).messages = rewriterMessages s := by
  unfold question_rewriter; split <;> rfl

lemma refine_noop (P : Ports) (s : AgentState) (h : 2 ≤ s.rephrase_count) :
    refine_question P s = s := by
  unfold refine_question; rw [if_pos h]

lemma refine_inc (P : Ports) (s : AgentState) (h : s.rephrase_count < 2) :
    (refine_question P s).rephrase_count = s.rephrase_count + 1 := by
  unfold refine_question; rw [if_neg (by omega)]

lemma refine_short (P : Ports) (s : AgentState) :
    (refine_question P s).short_term = s.short_term := by
  unfold refine_question; split <;> rfl

lemma refine_long (P : Ports) (s : AgentState) :
    (refine_question P s).long_term = s.long_term := by
  unfold refine_question; split <;> rfl

lemma refine_question_field (P : Ports) (s : AgentState) :
    (refine_question P s).question = s.question := by
  unfold refine_question; split <;> rfl

lemma grader_documents (P : Ports) (s : AgentState) :
    (retrieval_grader P s).documents
      = s.documents.filter (docRelevant P s.rephrased_question) := rfl

lemma grader_proceed (P : Ports) (s : AgentState) :
    (retrieval_grader P s).proceed_to_generate
      = decide (0 < (s.documents.filter (docRelevant P s.rephrased_question)).length) := rfl

lemma grader_count (P : Ports) (s : AgentState) :
    (retrieval_grader P s).rephrase_count = s.rephrase_count := rfl

lemma memory_frame (P : Ports) (s : AgentState) (n : Node) (hn : n ≠ Node.generate_answer) :
    (runNode P n s).short_term = s.short_term ∧ (runNode P n s).long_term = s.long_term := by
  cases n with
  | question_rewriter => exact ⟨qr_short P s, qr_long P s⟩
  | refine_question => exact ⟨refine_short P s, refine_long P s⟩
  | generate_answer => exact absurd rfl hn
  | _ => exact ⟨rfl, rfl⟩

lemma count_frame (P : Ports) (s : AgentState) (n : Node)
    (h1 : n ≠ Node.refine_question) (h2 : n ≠ Node.question_rewriter) :
    (runNode P n s).rephrase_count = s.rephrase_count := by
  cases n with
  | question_rewriter => exact absurd rfl h2
  | refine_question => exact absurd rfl h1
  | _ => rfl

lemma question_frame (P : Ports) (s : AgentState) (n : Node) :
    (runNode P n s).question = s.question := by
  cases n with
  | question_rewriter => exact qr_question P s
  | refine_question => exact refine_question_field P s
  | _ => rfl

/-! Edge and transition lemmas. -/

lemma nextNode_classifier (t : AgentState) :
    nextNode Node.question_classifier t
      = (if t.on_topic = "Yes" then Node.retrieve else Node.off_topic_response) := by
  unfold nextNode on_topic_router
  by_cases h : t.on_topic = "Yes" <;> simp [h]

lemma nextNode_grader (t : AgentState) :
    nextNode Node.retrieval_grader t
      = (if t.proceed_to_generate then Node.generate_answer
         else if t.rephrase_count < 2 then Node.refine_question
         else Node.cannot_answer) := by
  unfold nextNode proceed_router
  by_cases hp : t.proceed_to_generate
  · simp [hp]
  · by_cases hr : t.rephrase_count < 2 <;> simp [hp, hr]

lemma step_classifier (P : Ports) (s : AgentState) :
    step P (Node.question_classifier, s)
      = (if (question_classifier P s).on_topic = "Yes" then Node.retrieve
         else Node.off_topic_response, question_classifier P s) := by
  have h : step P (Node.question_classifier, s)
      = (nextNode Node.question_classifier (question_classifier P s), question_classifier P s) :=
    rfl
  rw [h, nextNode_classifier]

lemma step_grader (P : Ports) (s : AgentState) :
    step P (Node.retrieval_grader, s)
      = (if (retrieval_grader P s).proceed_to_generate then Node.generate_answer
         else if (retrieval_grader P s).rephrase_count < 2 then Node.refine_question
         else Node.cannot_answer, retrieval_grader P s) := by
  have h : step P (Node.retrieval_grader, s)
      = (nextNode Node.retrieval_grader (retrieval_grader P s), retrieval_grader P s) := rfl
  rw [h, nextNode_grader]

lemma stepN_add (P : Ports) (a b : Nat) (c : Node × AgentState) :
    stepN P (a + b) c = stepN P a (stepN P b c) := by
  induction b generalizing c with
  | zero => rfl
  | succ b ih => exact ih (step P c)

lemma stepN_terminal (P : Ports) : ∀ (k : Nat) (s : AgentState),
    stepN P k (Node.terminal, s) = (Node.terminal, s) := by
  intro k
  induction k with
  | zero => intro s; rfl
  | succ k ih => intro s; exact ih s

/-! Termination of the refinement loop and of a whole turn. -/

lemma loop_terminates (P : Ports) : ∀ (b : Nat) (s : AgentState),
    2 - s.rephrase_count ≤ b →
    (stepN P (3 * b + 3) (Node.retrieve, s)).1 = Node.terminal := by
  intro b
  induction b with
  | zero =>
    intro s hs
    have hc : 2 ≤ s.rephrase_count := by omega
    have h3 : stepN P (3 * 0 + 3) (Node.retrieve, s)
        = stepN P 1 (step P (Node.retrieval_grader, retrieve P s)) := rfl
    rw [h3, step_grader]
    have htc : (retrieval_grader P (retrieve P s)).rephrase_count = s.rephrase_count := rfl
    by_cases hp : (retrieval_grader P (retrieve P s)).proceed_to_generate
    · rw [if_pos hp]; rfl
    · rw [if_neg hp, if_neg (show ¬ (retrieval_grader P (retrieve P s)).rephrase_count < 2 by
        omega)]
      rfl
  | succ b ih =>
    intro s hs
    have harith : 3 * (b + 1) + 3 = (3 * b + 3) + 3 := by ring
    rw [harith, stepN_add]
    have h3 : stepN P 3 (Node.retrieve, s)
        = step P (step P (Node.retrieval_grader, retrieve P s)) := rfl
    rw [h3, step_grader]
    have htc : (retrieval_grader P (retrieve P s)).rephrase_count = s.rephrase_count := rfl
    by_cases hp : (retrieval_grader P (retrieve P s)).proceed_to_generate
    · rw [if_pos hp]
      have hg : step P (Node.generate_answer, retrieval_grader P (retrieve P s))
          = (Node.terminal, generate_answer P (retrieval_grader P (retrieve P s))) := rfl
      rw [hg, stepN_terminal]
    · by_cases hr : (retrieval_grader P (retrieve P s)).rephrase_count < 2
      · rw [if_neg hp, if_pos hr]
        have hf : step P (Node.refine_question, retrieval_grader P (retrieve P s))
            = (Node.retrieve, refine_question P (retrieval_grader P (retrieve P s))) := rfl
        rw [hf]
        apply ih
        have hinc : (refine_question P (retrieval_grader P (retrieve P s))).rephrase_count
            = (retrieval_grader P (retrieve P s)).rephrase_count + 1 :=
          refine_inc P _ hr
        omega
      · rw [if_neg hp, if_neg hr]
        have hg : step P (Node.cannot_answer, retrieval_grader P (retrieve P s))
            = (Node.terminal, cannot_answer (retrieval_grader P (retrieve P s))) := rfl
        rw [hg, stepN_terminal]

lemma turn_terminates (P : Ports) (s : AgentState) :
    (stepN P 11 (Node.question_rewriter, s)).1 = Node.terminal := by
  have h2 : stepN P 11 (Node.question_rewriter, s)
      = stepN P 9 (step P (Node.question_classifier, question_rewriter P s)) := rfl
  rw [h2, step_classifier]
  by_cases hy : (question_classifier P (question_rewriter P s)).on_topic = "Yes"
  · rw [if_pos hy]
    have htc : (question_classifier P (question_rewriter P s)).rephrase_count
        = (question_rewriter P s).rephrase_count := rfl
    have h0 : (question_rewriter P s).rephrase_count = 0 := qr_count P s
    exact loop_terminates P 2 _ (by omega)
  · rw [if_neg hy]
    have hoff : stepN P 9 (Node.off_topic_response,
        question_classifier P (question_rewriter P s))
        = stepN P 8 (Node.terminal,
            off_topic_response (question_classifier P (question_rewriter P s))) := rfl
    rw [hoff, stepN_terminal]

/-! Counting node visits along a turn. -/

lemma countNode_nil (t : Node) : countNode t [] = 0 := rfl

lemma countNode_cons (t n : Node) (l : List Node) :
    countNode t (n :: l) = (if n = t then 1 else 0) + countNode t l := rfl

lemma countNode_cons_ne (t n : Node) (l : List Node) (h : n ≠ t) :
    countNode t (n :: l) = countNode t l := by
  rw [countNode_cons, if_neg h]; omega

lemma countNode_cons_self (t : Node) (l : List Node) :
    countNode t (t :: l) = countNode t l + 1 := by
  rw [countNode_cons, if_pos rfl]; omega

lemma trace_terminal_count (P : Ports) (t : Node) (ht : t ≠ Node.terminal) :
    ∀ (k : Nat) (s : AgentState),
      countNode t (traceNodes P k (Node.terminal, s)) = 0 := by
  intro k
  induction k with
  | zero => intro s; rfl
  | succ k ih =>
    intro s
    have h : traceNodes P (k + 1) (Node.terminal, s)
        = Node.terminal :: traceNodes P k (Node.terminal, s) := rfl
    rw [h, countNode_cons_ne _ _ _ (fun hh => ht hh.symm), ih]

lemma trace_count_exit (P : Ports) (t n : Node) (hterm : ∀ u, nextNode n u = Node.terminal)
    (hn : n ≠ t) (ht : t ≠ Node.terminal) :
    ∀ (m : Nat) (s : AgentState), countNode t (traceNodes P m (n, s)) = 0 := by
  intro m
  cases m with
  | zero => intro s; rfl
  | succ m =>
    intro s
    have hstep : step P (n, s) = (Node.terminal, runNode P n s) := by
      show (nextNode n (runNode P n s), runNode P n s) = _
      rw [hterm]
    have h : traceNodes P (m + 1) (n, s) = n :: traceNodes P m (step P (n, s)) := rfl
    rw [h, hstep, countNode_cons_ne _ _ _ hn, trace_terminal_count P t ht]

lemma count_grader_loop (P : Ports) : ∀ (b : Nat) (s : AgentState),
    2 - s.rephrase_count ≤ b → ∀ k : Nat,
    countNode Node.retrieval_grader (traceNodes P k (Node.retrieve, s)) ≤ b + 1 := by
  intro b
  induction b with
  | zero =>
    intro s hs k
    have hc : 2 ≤ s.rephrase_count := by omega
    match k with
    | 0 => exact Nat.zero_le _
    | 1 => exact Nat.zero_le _
    | 2 =>
      have h : traceNodes P 2 (Node.retrieve, s)
          = [Node.retrieve, Node.retrieval_grader] := rfl
      rw [h, countNode_cons_ne _ _ _ (by decide), countNode_cons_self, countNode_nil]
    | (m + 3) =>
      have h : traceNodes P (m + 3) (Node.retrieve, s)
          = Node.retrieve :: Node.retrieval_grader
              :: traceNodes P (m + 1) (step P (Node.retrieval_grader, retrieve P s)) := rfl
      rw [h, step_grader, countNode_cons_ne _ _ _ (by decide), countNode_cons_self]
      have htc : (retrieval_grader P (retrieve P s)).rephrase_count = s.rephrase_count := rfl
      by_cases hp : (retrieval_grader P (retrieve P s)).proceed_to_generate
      · rw [if_pos hp]
        have hg : traceNodes P (m + 1)
            (Node.generate_answer, retrieval_grader P (retrieve P s))
            = Node.generate_answer :: traceNodes P m
                (Node.terminal, generate_answer P (retrieval_grader P (retrieve P s))) := rfl
        rw [hg, countNode_cons_ne _ _ _ (by decide),
          trace_terminal_count P _ (by decide)]
      · rw [if_neg hp, if_neg (show ¬ (retrieval_grader P (retrieve P s)).rephrase_count < 2 by
          omega)]
        have hg : traceNodes P (m + 1)
            (Node.cannot_answer, retrieval_grader P (retrieve P s))
            = Node.cannot_answer :: traceNodes P m
                (Node.terminal, cannot_answer (retrieval_grader P (retrieve P s))) := rfl
        rw [hg, countNode_cons_ne _ _ _ (by decide),
          trace_terminal_count P _ (by decide)]
  | succ b ih =>
    intro s hs k
    match k with
    | 0 => exact Nat.zero_le _
    | 1 => exact Nat.zero_le _
    | 2 =>
      have h : traceNodes P 2 (Node.retrieve, s)
          = [Node.retrieve, Node.retrieval_grader] := rfl
      rw [h, countNode_cons_ne _ _ _ (by decide), countNode_cons_self, countNode_nil]
      omega
    | (m + 3) =>
      have h : traceNodes P (m + 3) (Node.retrieve, s)
          = Node.retrieve :: Node.retrieval_grader
              :: traceNodes P (m + 1) (step P (Node.retrieval_grader, retrieve P s)) := rfl
      rw [h, step_grader, countNode_cons_ne _ _ _ (by decide), countNode_cons_self]
      have htc : (retrieval_grader P (retrieve P s)).rephrase_count = s.rephrase_count := rfl
      by_cases hp : (retrieval_grader P (retrieve P s)).proceed_to_generate
      · rw [if_pos hp]
        have hg : traceNodes P (m + 1)
            (Node.generate_answer, retrieval_grader P (retrieve P s))
            = Node.generate_answer :: traceNodes P m
                (Node.terminal, generate_answer P (retrieval_grader P (retrieve P s))) := rfl
        rw [hg, countNode_cons_ne _ _ _ (by decide),
          trace_terminal_count P _ (by decide)]
        omega
      · by_cases hr : (retrieval_grader P (retrieve P s)).rephrase_count < 2
        · rw [if_neg hp, if_pos hr]
          have hf : traceNodes P (m + 1)
              (Node.refine_question, retrieval_grader P (retrieve P s))
              = Node.refine_question :: traceNodes P m
                  (Node.retrieve, refine_question P (retrieval_grader P (retrieve P s))) := rfl
          rw [hf, countNode_cons_ne _ _ _ (by decide)]
          have hinc : (refine_question P (retrieval_grader P (retrieve P s))).rephrase_count
              = (retrieval_grader P (retrieve P s)).rephrase_count + 1 :=
            refine_inc P _ hr
          have := ih (refine_question P (retrieval_grader P (retrieve P s))) (by omega) m
          omega
        · rw [if_neg hp, if_neg hr]
          have hg : traceNodes P (m + 1)
              (Node.cannot_answer, retrieval_grader P (retrieve P s))
              = Node.cannot_answer :: traceNodes P m
                  (Node.terminal, cannot_answer (retrieval_grader P (retrieve P s))) := rfl
          rw [hg, countNode_cons_ne _ _ _ (by decide),
            trace_terminal_count P _ (by decide)]
          omega

lemma count_grader_turn (P : Ports) (s : AgentState) : ∀ k : Nat,
    countNode Node.retrieval_grader (traceNodes P k (Node.question_rewriter, s)) ≤ 3 := by
  intro k
  match k with
  | 0 => exact Nat.zero_le _
  | 1 =>
    have h : traceNodes P 1 (Node.question_rewriter, s) = [Node.question_rewriter] := rfl
    rw [h, countNode_cons_ne _ _ _ (by decide)]
    exact Nat.zero_le _
  | (m + 2) =>
    have h : traceNodes P (m + 2) (Node.question_rewriter, s)
        = Node.question_rewriter :: Node.question_classifier
            :: traceNodes P m (step P (Node.question_classifier, question_rewriter P s)) := rfl
    rw [h, step_classifier, countNode_cons_ne _ _ _ (by decide),
      countNode_cons_ne _ _ _ (by decide)]
    by_cases hy : (question_classifier P (question_rewriter P s)).on_topic = "Yes"
    · rw [if_pos hy]
      have htc : (question_classifier P (question_rewriter P s)).rephrase_count
          = (question_rewriter P s).rephrase_count := rfl
      have h0 : (question_rewriter P s).rephrase_count = 0 := qr_count P s
      exact count_grader_loop P 2 _ (by omega) m
    · rw [if_neg hy]
      rw [trace_count_exit P _ Node.off_topic_response (fun u => rfl) (by decide) (by decide)]
      exact Nat.zero_le _

lemma count_gen_loop (P : Ports) : ∀ (b : Nat) (s : AgentState),
    2 - s.rephrase_count ≤ b → ∀ k : Nat,
    countNode Node.generate_answer (traceNodes P k (Node.retrieve, s)) ≤ 1 := by
  intro b
  induction b with
  | zero =>
    intro s hs k
    have hc : 2 ≤ s.rephrase_count := by omega
    match k with
    | 0 => exact Nat.zero_le _
    | 1 => exact Nat.zero_le _
    | 2 =>
      have h : traceNodes P 2 (Node.retrieve, s)
          = [Node.retrieve, Node.retrieval_grader] := rfl
      rw [h, countNode_cons_ne _ _ _ (by decide), countNode_cons_ne _ _ _ (by decide)]
      exact Nat.zero_le _
    | (m + 3) =>
      have h : traceNodes P (m + 3) (Node.retrieve, s)
          = Node.retrieve :: Node.retrieval_grader
              :: traceNodes P (m + 1) (step P (Node.retrieval_grader, retrieve P s)) := rfl
      rw [h, step_grader, countNode_cons_ne _ _ _ (by decide),
        countNode_cons_ne _ _ _ (by decide)]
      have htc : (retrieval_grader P (retrieve P s)).rephrase_count = s.rephrase_count := rfl
      by_cases hp : (retrieval_grader P (retrieve P s)).proceed_to_generate
      · rw [if_pos hp]
        have hg : traceNodes P (m + 1)
            (Node.generate_answer, retrieval_grader P (retrieve P s))
            = Node.generate_answer :: traceNodes P m
                (Node.terminal, generate_answer P (retrieval_grader P (retrieve P s))) := rfl
        rw [hg, countNode_cons_self, trace_terminal_count P _ (by decide)]
      · rw [if_neg hp, if_neg (show ¬ (retrieval_grader P (retrieve P s)).rephrase_count < 2 by
          omega)]
        have hg : traceNodes P (m + 1)
            (Node.cannot_answer, retrieval_grader P (retrieve P s))
            = Node.cannot_answer :: traceNodes P m
                (Node.terminal, cannot_answer (retrieval_grader P (retrieve P s))) := rfl
        rw [hg, countNode_cons_ne _ _ _ (by decide),
          trace_terminal_count P _ (by decide)]
        exact Nat.zero_le _
  | succ b ih =>
    intro s hs k
    match k with
    | 0 => exact Nat.zero_le _
    | 1 => exact Nat.zero_le _
    | 2 =>
      have h : traceNodes P 2 (Node.retrieve, s)
          = [Node.retrieve, Node.retrieval_grader] := rfl
      rw [h, countNode_cons_ne _ _ _ (by decide), countNode_cons_ne _ _ _ (by decide)]
      exact Nat.zero_le _
    | (m + 3) =>
      have h : traceNodes P (m + 3) (Node.retrieve, s)
          = Node.retrieve :: Node.retrieval_grader
              :: traceNodes P (m + 1) (step P (Node.retrieval_grader, retrieve P s)) := rfl
      rw [h, step_grader, countNode_cons_ne _ _ _ (by decide),
        countNode_cons_ne _ _ _ (by decide)]
      have htc : (retrieval_grader P (retrieve P s)).rephrase_count = s.rephrase_count := rfl
      by_cases hp : (retrieval_grader P (retrieve P s)).proceed_to_generate
      · rw [if_pos hp]
        have hg : traceNodes P (m + 1)
            (Node.generate_answer, retrieval_grader P (retrieve P s))
            = Node.generate_answer :: traceNodes P m
                (Node.terminal, generate_answer P (retrieval_grader P (retrieve P s))) := rfl
        rw [hg, countNode_cons_self, trace_terminal_count P _ (by decide)]
      · by_cases hr : (retrieval_grader P (retrieve P s)).rephrase_count < 2
        · rw [if_neg hp, if_pos hr]
          have hf : traceNodes P (m + 1)
              (Node.refine_question, retrieval_grader P (retrieve P s))
              = Node.refine_question :: traceNodes P m
                  (Node.retrieve, refine_question P (retrieval_grader P (retrieve P s))) := rfl
          rw [hf, countNode_cons_ne _ _ _ (by decide)]
          have hinc : (refine_question P (retrieval_grader P (retrieve P s))).rephrase_count
              = (retrieval_grader P (retrieve P s)).rephrase_count + 1 :=
            refine_inc P _ hr
          exact ih (refine_question P (retrieval_grader P (retrieve P s))) (by omega) m
        · rw [if_neg hp, if_neg hr]
          have hg : traceNodes P (m + 1)
              (Node.cannot_answer, retrieval_grader P (retrieve P s))
              = Node.cannot_answer :: traceNodes P m
                  (Node.terminal, cannot_answer (retrieval_grader P (retrieve P s))) := rfl
          rw [hg, countNode_cons_ne _ _ _ (by decide),
            trace_terminal_count P _ (by decide)]
          exact Nat.zero_le _

lemma count_gen_turn (P : Ports) (s : AgentState) : ∀ k : Nat,
    countNode Node.generate_answer (traceNodes P k (Node.question_rewriter, s)) ≤ 1 := by
  intro k
  match k with
  | 0 => exact Nat.zero_le _
  | 1 =>
    have h : traceNodes P 1 (Node.question_rewriter, s) = [Node.question_rewriter] := rfl
    rw [h, countNode_cons_ne _ _ _ (by decide)]
    exact Nat.zero_le _
  | (m + 2) =>
    have h : traceNodes P (m + 2) (Node.question_rewriter, s)
        = Node.question_rewriter :: Node.question_classifier
            :: traceNodes P m (step P (Node.question_classifier, question_rewriter P s)) := rfl
    rw [h, step_classifier, countNode_cons_ne _ _ _ (by decide),
      countNode_cons_ne _ _ _ (by decide)]
    by_cases hy : (question_classifier P (question_rewriter P s)).on_topic = "Yes"
    · rw [if_pos hy]
      have htc : (question_classifier P (question_rewriter P s)).rephrase_count
          = (question_rewriter P s).rephrase_count := rfl
      have h0 : (question_rewriter P s).rephrase_count = 0 := qr_count P s
      exact count_gen_loop P 2 _ (by omega) m
    · rw [if_neg hy]
      rw [trace_count_exit P _ Node.off_topic_response (fun u => rfl) (by decide) (by decide)]
      exact Nat.zero_le _

/-! Question/answer pairing of the memory lists. -/

lemma PairList.append_pair (q a : Msg) (l : List Msg) (hq : q.role = Role.human)
    (ha : a.role = Role.ai) (hl : PairList l) : PairList (l ++ [q, a]) := by
  induction hl with
  | nil => exact PairList.cons q a [] hq ha PairList.nil
  | cons q2 a2 l2 hq2 ha2 hl2 ih => exact PairList.cons q2 a2 _ hq2 ha2 ih

lemma PairList.even_length (l : List Msg) (h : PairList l) : l.length % 2 = 0 := by
  induction h with
  | nil => rfl
  | cons q a l2 hq ha hl ih => simp only [List.length_cons]; omega

lemma PairList.get_role (l : List Msg) (h : PairList l) : ∀ (i : Nat) (hi : i < l.length),
    (l.get ⟨i, hi⟩).role = (if i % 2 = 0 then Role.human else Role.ai) := by
  induction h with
  | nil => intro i hi; simp at hi
  | cons q a l2 hq ha hl ih =>
    intro i hi
    match i with
    | 0 => simpa using hq
    | 1 => simpa using ha
    | (i + 2) =>
      have hm : (i + 2) % 2 = i % 2 := by omega
      rw [hm]
      have hi2 : i < l2.length := by simp at hi; omega
      exact ih i hi2

lemma gen_long_term (P : Ports) (s : AgentState) :
    (generate_answer P s).long_term
      = (if is_important s.question.content then s.long_term ++ [s.question, genMessage P s]
         else s.long_term) := rfl

lemma runNode_pairs (P : Ports) (n : Node) (s : AgentState)
    (hq : s.question.role = Role.human) (hst : PairList s.short_term)
    (hlt : PairList s.long_term) :
    (runNode P n s).question.role = Role.human ∧ PairList (runNode P n s).short_term
      ∧ PairList (runNode P n s).long_term := by
  cases n with
  | generate_answer =>
    refine ⟨by rw [question_frame]; exact hq, ?_, ?_⟩
    · exact PairList.append_pair s.question (genMessage P s) s.short_term hq rfl hst
    · show PairList (generate_answer P s).long_term
      rw [gen_long_term]
      split
      · exact PairList.append_pair s.question (genMessage P s) s.long_term hq rfl hlt
      · exact hlt
  | _ =>
    exact ⟨by rw [question_frame]; exact hq,
      by rw [(memory_frame P s _ (by decide)).1]; exact hst,
      by rw [(memory_frame P s _ (by decide)).2]; exact hlt⟩

lemma stepN_pairs (P : Ports) : ∀ (k : Nat) (n : Node) (s : AgentState),
    s.question.role = Role.human → PairList s.short_term → PairList s.long_term →
    ((stepN P k (n, s)).2).question.role = Role.human
      ∧ PairList ((stepN P k (n, s)).2).short_term
      ∧ PairList ((stepN P k (n, s)).2).long_term := by
  intro k
  induction k with
  | zero => intro n s hq hst hlt; exact ⟨hq, hst, hlt⟩
  | succ k ih =>
    intro n s hq hst hlt
    have h : stepN P (k + 1) (n, s)
        = stepN P k (nextNode n (runNode P n s), runNode P n s) := rfl
    rw [h]
    obtain ⟨h1, h2, h3⟩ := runNode_pairs P n s hq hst hlt
    exact ih _ _ h1 h2 h3

/-- C1: the generate_answer node is entered only by the edge out of
retrieval_grader taken when proceed_to_generate is true, and the state it
then observes carries a non-empty documents list equal to the filtered
output of the grading pass that has just run, every member of which the
grader judged relevant. -/
theorem C1_generate_entry_guarded (P : Ports) (n : Node) (s s2 : AgentState)
    (h : step P (n, s) = (Node.generate_answer, s2)) :
    n = Node.retrieval_grader
    ∧ s2 = retrieval_grader P s
    ∧ s2.proceed_to_generate = true
    ∧ s2.documents ≠ []
    ∧ s2.documents = s.documents.filter (docRelevant P s.rephrased_question)
    ∧ (∀ d ∈ s2.documents, docRelevant P s.rephrased_question d = true) := by
  have hfst := congrArg Prod.fst h
  have hsnd := congrArg Prod.snd h
  cases n with
  | question_rewriter => exact Node.noConfusion hfst
  | question_classifier =>
    have hfst2 : nextNode Node.question_classifier (question_classifier P s)
        = Node.generate_answer := hfst
    rw [nextNode_classifier] at hfst2
    split at hfst2 <;> exact Node.noConfusion hfst2
  | retrieve => exact Node.noConfusion hfst
  | retrieval_grader =>
    have hfst2 : nextNode Node.retrieval_grader (retrieval_grader P s)
        = Node.generate_answer := hfst
    have hsnd2 : retrieval_grader P s = s2 := hsnd
    rw [nextNode_grader] at hfst2
    by_cases hp : (retrieval_grader P s).proceed_to_generate = true
    · refine ⟨rfl, hsnd2.symm, ?_, ?_, ?_, ?_⟩
      · rw [← hsnd2]; exact hp
      · rw [← hsnd2]
        have hp2 := hp
        rw [grader_proceed] at hp2
        have hlen := of_decide_eq_true hp2
        show s.documents.filter (docRelevant P s.rephrased_question) ≠ []
        exact List.length_pos.mp hlen
      · rw [← hsnd2]; rfl
      · rw [← hsnd2]
        intro d hd
        exact (List.mem_filter.mp hd).2
    · rw [if_neg hp] at hfst2
      split at hfst2 <;> exact Node.noConfusion hfst2
  | refine_question => exact Node.noConfusion hfst
  | generate_answer => exact Node.noConfusion hfst
  | cannot_answer => exact Node.noConfusion hfst
  | off_topic_response => exact Node.noConfusion hfst
  | terminal => exact Node.noConfusion hfst

/-- C1 witness: with a model that always answers Yes and one retrieved
document, the grading step enters generation with a non-empty filtered
document set. -/
theorem C1_generate_entry_guarded_witness :
    (retrieval_grader portsYes gradeState).documents ≠ [] :=
  (C1_generate_entry_guarded portsYes Node.retrieval_grader gradeState
    (retrieval_grader portsYes gradeState) (by decide)).2.2.2.1

/-- C2: rephrase_count is reset to 0 by question_rewriter, incremented by
exactly 1 by refine_question below the bound, left untouched above it
(pass-through no-op) and by every other node, never exceeds 2, and the
refine/retrieve/grade loop of a turn terminates (a turn is over after 11
transitions) with at most 3 grading passes. -/
theorem C2_rephrase_count_bounded_loop (P : Ports) (s : AgentState) :
    (question_rewriter P s).rephrase_count = 0
    ∧ (s.rephrase_count < 2 →
        (refine_question P s).rephrase_count = s.rephrase_count + 1)
    ∧ (2 ≤ s.rephrase_count → refine_question P s = s)
    ∧ (∀ n, n ≠ Node.refine_question → n ≠ Node.question_rewriter →
        (runNode P n s).rephrase_count = s.rephrase_count)
    ∧ (∀ n, s.rephrase_count ≤ 2 → (runNode P n s).rephrase_count ≤ 2)
    ∧ (stepN P 11 (Node.question_rewriter, s)).1 = Node.terminal
    ∧ (∀ k, countNode Node.retrieval_grader
        (traceNodes P k (Node.question_rewriter, s)) ≤ 3) := by
  refine ⟨qr_count P s, fun h => refine_inc P s h, fun h => refine_noop P s h,
    fun n h1 h2 => count_frame P s n h1 h2, ?_, turn_terminates P s, count_grader_turn P s⟩
  intro n hle
  cases n with
  | question_rewriter =>
    show (question_rewriter P s).rephrase_count ≤ 2
    rw [qr_count]
    omega
  | refine_question =>
    show (refine_question P s).rephrase_count ≤ 2
    by_cases h2 : 2 ≤ s.rephrase_count
    · rw [refine_noop P s h2]; exact hle
    · rw [refine_inc P s (by omega)]; omega
  | _ =>
    rw [count_frame P s _ (by decide) (by decide)]
    exact hle

/-- C2 witness: at the fresh state the refinement step increments the
counter to 1, and at an exhausted state it is a pass-through no-op. -/
theorem C2_rephrase_count_bounded_loop_witness :
    (refine_question portsYes baseState).rephrase_count = baseState.rephrase_count + 1
    ∧ refine_question portsYes exhaustedState = exhaustedState :=
  ⟨(C2_rephrase_count_bounded_loop portsYes baseState).2.1 (by decide),
   (C2_rephrase_count_bounded_loop portsYes exhaustedState).2.2.1 (by decide)⟩

/-- C3: retrieval_grader replaces documents by exactly the passages whose
stripped, lower-cased verdict starts with y, in their original relative
order (a sublist of the input), and proceed_to_generate is true exactly
when at least one passage survived. -/
theorem C3_grader_filters_and_gates (P : Ports) (s : AgentState) :
    (retrieval_grader P s).documents
        = s.documents.filter (docRelevant P s.rephrased_question)
    ∧ List.Sublist (retrieval_grader P s).documents s.documents
    ∧ (∀ d, d ∈ (retrieval_grader P s).documents ↔
        d ∈ s.documents ∧ docRelevant P s.rephrased_question d = true)
    ∧ ((retrieval_grader P s).proceed_to_generate = true
        ↔ (retrieval_grader P s).documents ≠ [])
    ∧ ((retrieval_grader P s).proceed_to_generate = false
        ↔ (retrieval_grader P s).documents = []) := by
  refine ⟨rfl, ?_, ?_, ?_, ?_⟩
  · exact List.filter_sublist s.documents
  · intro d
    exact List.mem_filter
  · show decide (0 < (s.documents.filter (docRelevant P s.rephrased_question)).length) = true
        ↔ s.documents.filter (docRelevant P s.rephrased_question) ≠ []
    rw [decide_eq_true_eq]
    exact List.length_pos
  · show decide (0 < (s.documents.filter (docRelevant P s.rephrased_question)).length) = false
        ↔ s.documents.filter (docRelevant P s.rephrased_question) = []
    rw [decide_eq_false_iff_not, List.length_pos]
    simp

/-- C4: question_classifier sets on_topic to Yes exactly when the stripped,
lower-cased model response starts with y, to No otherwise, and never to
anything else. -/
theorem C4_classifier_default_to_no (P : Ports) (s : AgentState) :
    ((question_classifier P s).on_topic = "Yes"
        ↔ pyStartsWith (pyLower (pyStrip (P.llm (classifierPrompt s)))) "y" = true)
    ∧ ((question_classifier P s).on_topic = "No"
        ↔ pyStartsWith (pyLower (pyStrip (P.llm (classifierPrompt s)))) "y" = false)
    ∧ ((question_classifier P s).on_topic = "Yes"
        ∨ (question_classifier P s).on_topic = "No") := by
  have hval : (question_classifier P s).on_topic
      = (if pyStartsWith (pyLower (pyStrip (P.llm (classifierPrompt s)))) "y"
         then "Yes" else "No") := rfl
  rw [hval]
  rcases Bool.eq_false_or_eq_true
      (pyStartsWith (pyLower (pyStrip (P.llm (classifierPrompt s)))) "y") with h | h <;>
    rw [h] <;> simp

/-- C5 counterexample: when the incoming question equals an older message
but not the most recently appended one, the claim as stated requires the
question to be appended, yet question_rewriter leaves messages unchanged
because its membership test looks at the whole list by value equality. -/
theorem C5_rewriter_append_counterexample :
    replayState.messages.getLast? ≠ some replayState.question
    ∧ (question_rewriter portsNo replayState).messages
        ≠ replayState.messages ++ [replayState.question]
    ∧ (question_rewriter portsNo replayState).messages = replayState.messages := by
  decide

/-- C5 amended: question_rewriter resets documents, on_topic,
proceed_to_generate and rephrase_count; it appends the question to
messages exactly when no message equal to it (content equality, not
identity) already occurs anywhere in messages; when the post-append
messages has at most one entry, rephrased_question is the raw question
text verbatim. -/
theorem C5_rewriter_reset_and_append (P : Ports) (s : AgentState) :
    (question_rewriter P s).documents = []
    ∧ (question_rewriter P s).on_topic = ""
    ∧ (question_rewriter P s).proceed_to_generate = false
    ∧ (question_rewriter P s).rephrase_count = 0
    ∧ (question_rewriter P s).messages
        = (if s.question ∈ s.messages then s.messages else s.messages ++ [s.question])
    ∧ ((question_rewriter P s).messages.length ≤ 1 →
        (question_rewriter P s).rephrased_question = s.question.content) := by
  refine ⟨qr_documents P s, qr_on_topic P s, qr_proceed P s, qr_count P s,
    qr_messages P s, ?_⟩
  intro hlen
  rw [qr_messages] at hlen
  unfold question_rewriter
  rw [if_neg (by omega)]

/-- C5 witness: on a first turn the rephrased question is the raw question
text. -/
theorem C5_rewriter_reset_and_append_witness :
    (question_rewriter portsYes baseState).rephrased_question = baseState.question.content :=
  (C5_rewriter_reset_and_append portsYes baseState).2.2.2.2.2 (by decide)

/-- C6: generate_answer appends the question/answer pair to short_term
unconditionally and to long_term exactly when the original question
case-insensitively contains one of the fixed importance keywords; no other
node writes short_term or long_term, and generate_answer runs at most once
per turn. -/
theorem C6_long_term_importance_gate (P : Ports) (s : AgentState) :
    (generate_answer P s).short_term = s.short_term ++ [s.question, genMessage P s]
    ∧ (generate_answer P s).long_term
        = (if is_important s.question.content
           then s.long_term ++ [s.question, genMessage P s]
           else s.long_term)
    ∧ (is_important s.question.content = true
        ↔ ∃ k ∈ importance_keywords, strContains (pyLower s.question.content) k = true)
    ∧ (is_important s.question.content = false →
        (generate_answer P s).long_term = s.long_term)
    ∧ (∀ n, n ≠ Node.generate_answer →
        (runNode P n s).short_term = s.short_term ∧ (runNode P n s).long_term = s.long_term)
    ∧ (∀ k, countNode Node.generate_answer
        (traceNodes P k (Node.question_rewriter, s)) ≤ 1) := by
  refine ⟨rfl, gen_long_term P s, ?_, ?_, fun n hn => memory_frame P s n hn,
    count_gen_turn P s⟩
  · simp [is_important]
  · intro h
    rw [gen_long_term, h]
    simp

/-- C6 witness: a dosage question is persisted to long_term while a plain
greeting leaves it unchanged. -/
theorem C6_long_term_importance_gate_witness :
    (generate_answer portsYes baseState).long_term
        = baseState.long_term ++ [baseState.question, genMessage portsYes baseState]
    ∧ (generate_answer portsYes plainState).long_term = plainState.long_term := by
  constructor
  · have h := (C6_long_term_importance_gate portsYes baseState).2.1
    rw [h]
    decide
  · exact (C6_long_term_importance_gate portsYes plainState).2.2.2.1 (by decide)

/-- C7: the cannot_answer node is entered only by the edge out of
retrieval_grader taken when no passage survived grading and the refinement
budget is exhausted, and its body appends exactly the fixed fallback
message to messages and changes nothing else. -/
theorem C7_cannot_answer_guarded (P : Ports) (n : Node) (s s2 : AgentState)
    (h : step P (n, s) = (Node.cannot_answer, s2)) :
    n = Node.retrieval_grader
    ∧ s2 = retrieval_grader P s
    ∧ s2.proceed_to_generate = false
    ∧ 2 ≤ s2.rephrase_count
    ∧ (∀ t : AgentState,
        cannot_answer t = { t with messages := t.messages ++ [cannotAnswerMsg] })
    ∧ (cannot_answer s2).messages = s2.messages ++ [cannotAnswerMsg] := by
  have hfst := congrArg Prod.fst h
  have hsnd := congrArg Prod.snd h
  cases n with
  | question_rewriter => exact Node.noConfusion hfst
  | question_classifier =>
    have hfst2 : nextNode Node.question_classifier (question_classifier P s)
        = Node.cannot_answer := hfst
    rw [nextNode_classifier] at hfst2
    split at hfst2 <;> exact Node.noConfusion hfst2
  | retrieve => exact Node.noConfusion hfst
  | retrieval_grader =>
    have hfst2 : nextNode Node.retrieval_grader (retrieval_grader P s)
        = Node.cannot_answer := hfst
    have hsnd2 : retrieval_grader P s = s2 := hsnd
    rw [nextNode_grader] at hfst2
    rcases Bool.eq_false_or_eq_true ((retrieval_grader P s).proceed_to_generate) with hp | hp
    · rw [if_pos hp] at hfst2
      exact Node.noConfusion hfst2
    · rw [if_neg (by simp [hp])] at hfst2
      by_cases hr : (retrieval_grader P s).rephrase_count < 2
      · rw [if_pos hr] at hfst2
        exact Node.noConfusion hfst2
      · refine ⟨rfl, hsnd2.symm, ?_, ?_, fun t => rfl, rfl⟩
        · rw [← hsnd2]; exact hp
        · rw [← hsnd2]
          show 2 ≤ (retrieval_grader P s).rephrase_count
          omega
  | refine_question => exact Node.noConfusion hfst
  | generate_answer => exact Node.noConfusion hfst
  | cannot_answer => exact Node.noConfusion hfst
  | off_topic_response => exact Node.noConfusion hfst
  | terminal => exact Node.noConfusion hfst

/-- C7 witness: with a model that always answers No and an exhausted
refinement budget, the grading step enters cannot_answer. -/
theorem C7_cannot_answer_guarded_witness :
    2 ≤ (retrieval_grader portsNo exhaustedGradeState).rephrase_count :=
  (C7_cannot_answer_guarded portsNo Node.retrieval_grader exhaustedGradeState
    (retrieval_grader portsNo exhaustedGradeState) (by decide)).2.2.2.1

/-- C8: a turn whose classification comes out No terminates in three
transitions at the off_topic_response terminal, which appends exactly the
fixed off-topic message and changes nothing else; at that point documents
is empty. -/
theorem C8_off_topic_terminal (P : Ports) (s : AgentState)
    (h : (question_classifier P (question_rewriter P s)).on_topic = "No") :
    stepN P 3 (Node.question_rewriter, s)
        = (Node.terminal,
            off_topic_response (question_classifier P (question_rewriter P s)))
    ∧ (off_topic_response (question_classifier P (question_rewriter P s))).messages
        = (question_classifier P (question_rewriter P s)).messages ++ [offTopicMsg]
    ∧ (off_topic_response (question_classifier P (question_rewriter P s))).documents = []
    ∧ (∀ t : AgentState,
        off_topic_response t = { t with messages := t.messages ++ [offTopicMsg] }) := by
  refine ⟨?_, rfl, ?_, fun t => rfl⟩
  · have h3 : stepN P 3 (Node.question_rewriter, s)
        = stepN P 1 (step P (Node.question_classifier, question_rewriter P s)) := rfl
    rw [h3, step_classifier, if_neg (by rw [h]; decide)]
    rfl
  · have hd : (off_topic_response (question_classifier P (question_rewriter P s))).documents
        = (question_rewriter P s).documents := rfl
    rw [hd, qr_documents]

/-- C8 witness: with a model that always answers No, a fresh turn ends at
the off-topic terminal with empty documents. -/
theorem C8_off_topic_terminal_witness :
    (off_topic_response (question_classifier portsNo
        (question_rewriter portsNo baseState))).documents = [] :=
  (C8_off_topic_terminal portsNo baseState (by decide)).2.2.1

/-- C9: running question_rewriter twice in a row yields the same reset
values of on_topic, documents and proceed_to_generate as running it
once. -/
theorem C9_reset_idempotent (P : Ports) (s : AgentState) :
    (question_rewriter P (question_rewriter P s)).on_topic
        = (question_rewriter P s).on_topic
    ∧ (question_rewriter P (question_rewriter P s)).documents
        = (question_rewriter P s).documents
    ∧ (question_rewriter P (question_rewriter P s)).proceed_to_generate
        = (question_rewriter P s).proceed_to_generate := by
  refine ⟨?_, ?_, ?_⟩
  · rw [qr_on_topic, qr_on_topic]
  · rw [qr_documents, qr_documents]
  · rw [qr_proceed, qr_proceed]

/-- C10: only generate_answer writes short_term and long_term, each write
appends exactly the question/answer pair in that order, and consequently
along any execution starting from paired memories both lists stay made of
alternating human-question/AI-answer pairs and keep even length. -/
theorem C10_memory_pairing (P : Ports) (s : AgentState) :
    (∀ n, n ≠ Node.generate_answer →
        (runNode P n s).short_term = s.short_term ∧ (runNode P n s).long_term = s.long_term)
    ∧ (generate_answer P s).short_term = s.short_term ++ [s.question, genMessage P s]
    ∧ ((generate_answer P s).long_term = s.long_term
        ∨ (generate_answer P s).long_term = s.long_term ++ [s.question, genMessage P s])
    ∧ (genMessage P s).role = Role.ai
    ∧ (∀ n k, s.question.role = Role.human → PairList s.short_term → PairList s.long_term →
        PairList ((stepN P k (n, s)).2).short_term
          ∧ PairList ((stepN P k (n, s)).2).long_term
          ∧ ((stepN P k (n, s)).2).short_term.length % 2 = 0
          ∧ ((stepN P k (n, s)).2).long_term.length % 2 = 0)
    ∧ (∀ l, PairList l → ∀ (i : Nat) (hi : i < l.length),
        (l.get ⟨i, hi⟩).role = (if i % 2 = 0 then Role.human else Role.ai)) := by
  refine ⟨fun n hn => memory_frame P s n hn, rfl, ?_, rfl, ?_,
    fun l hl => PairList.get_role l hl⟩
  · rw [gen_long_term]
    split
    · exact Or.inr rfl
    · exact Or.inl rfl
  · intro n k hq hst hlt
    obtain ⟨h1, h2, h3⟩ := stepN_pairs P k n s hq hst hlt
    exact ⟨h2, h3, PairList.even_length _ h2, PairList.even_length _ h3⟩

/-- C10 witness: a full turn from a fresh session keeps short_term at even
length. -/
theorem C10_memory_pairing_witness :
    ((stepN portsYes 11 (Node.question_rewriter, baseState)).2).short_term.length % 2 = 0 :=
  ((C10_memory_pairing portsYes baseState).2.2.2.2.1 Node.question_rewriter 11 rfl
    PairList.nil PairList.nil).2.2.1

end RagMedicalChatbot
